import Mathlib

/-!
Shallow embedding of the task-execution core of the Telegram-Downloader
repository (`src/performance_utils.py`): the adaptive rate limiter, the
retry decorator, the download metrics collector and the concurrent
download pool.

Modelling conventions:
* wall-clock times, durations and rates are rationals (`ℚ`); `time.time()`
  reads are passed in explicitly as `now` arguments, and `asyncio.sleep d`
  is idealised as advancing the clock by exactly `d`;
* `collections.deque(maxlen = n)` becomes a list together with the
  append-and-evict operation `dequeAppend`;
* Python `None` used as the cleared flood-wait marker becomes `Option ℚ`,
  and the Python truthiness test `if self.flood_wait_until` becomes the
  explicit `u ≠ 0` guard;
* raised exceptions become the `Except.error` constructor: a function whose
  Python counterpart can `raise` returns an `Except` value, and `.error`
  means the exception propagates to the caller;
* the `asyncio.gather(..., return_exceptions := True)` call in
  `download_batch` is embedded as the deterministic in-order sequencing of
  the per-task coroutines, each raised exception captured as a data value
  in the result list (this is exactly the order `gather` guarantees).
-/

namespace TelegramDownloader

/-- The `collections.deque` append with a `maxlen` bound: appending to a full
deque evicts the oldest (leftmost) elements so that the length never
exceeds `maxlen`. -/
def dequeAppend (maxlen : Nat) (xs : List ℚ) (x : ℚ) : List ℚ :=
  let ys := xs ++ [x]
  if maxlen < ys.length then ys.drop (ys.length - maxlen) else ys

/-- State of `RateLimiter` (`performance_utils.py`, lines 15-87):
`calls_per_second`, `burst_size`, `adaptive`, the `call_times` deque
(bounded by `burst_size`) and the optional `flood_wait_until` timestamp. -/
structure RLState where
  calls_per_second : ℚ
  burst_size : Nat
  adaptive : Bool
  call_times : List ℚ
  flood_wait_until : Option ℚ
deriving Repr, DecidableEq

namespace RLState

/-- Embeds `RateLimiter.__init__`: fresh limiter with an empty `call_times` deque
and no flood wait. -/
def init (callsPerSecond : ℚ) (burstSize : Nat) (adaptive : Bool) : RLState :=
  { calls_per_second := callsPerSecond
    burst_size := burstSize
    adaptive := adaptive
    call_times := []
    flood_wait_until := none }

/-- First phase of `RateLimiter.acquire` (lines 46-52): if a flood-wait
window is active (`flood_wait_until` truthy and `now` before it), sleep
until it ends and clear it. Returns the updated state and the clock after
the (possible) sleep. -/
def floodWaitStep (s : RLState) (now : ℚ) : RLState × ℚ :=
  match s.flood_wait_until with
  | some u =>
      if u ≠ 0 ∧ now < u then ({ s with flood_wait_until := none }, u)
      else (s, now)
  | none => (s, now)

/-- Second phase of `RateLimiter.acquire` (lines 54-64): if the `call_times`
deque has reached `burst_size`, make sure the window since the oldest
recorded call is at least `burst_size / calls_per_second` seconds, sleeping
for the difference if not. Returns the clock after the (possible) sleep. -/
def burstStep (s : RLState) (now : ℚ) : ℚ :=
  if s.burst_size ≤ s.call_times.length then
    let oldest := s.call_times.headD 0
    let timeWindow := now - oldest
    let requiredWindow := (s.burst_size : ℚ) / s.calls_per_second
    if timeWindow < requiredWindow then now + (requiredWindow - timeWindow)
    else now
  else now

/-- Embeds `RateLimiter.acquire` (lines 42-67): flood-wait handling, then the
burst-window check, then record the current time into the deque. Returns
the updated state together with the recorded call time (the instant the
call is released). -/
def acquire (s : RLState) (now : ℚ) : RLState × ℚ :=
  let fw := s.floodWaitStep now
  let s1 := fw.1
  let now2 := s1.burstStep fw.2
  ({ s1 with call_times := dequeAppend s1.burst_size s1.call_times now2 }, now2)

/-- Embeds `RateLimiter.set_flood_wait` (lines 69-82): install a flood-wait window
ending `seconds + 1` after `now` (the extra second is the hard-coded
buffer), then, in adaptive mode and only while the rate is above 0.1,
multiply the rate by 0.8. -/
def set_flood_wait (s : RLState) (now : ℚ) (seconds : Nat) : RLState :=
  let s1 := { s with flood_wait_until := some (now + (seconds : ℚ) + 1) }
  if s1.adaptive ∧ 1/10 < s1.calls_per_second then
    { s1 with calls_per_second := s1.calls_per_second * (4/5) }
  else s1

/-- A sequence of `set_flood_wait` notifications, each given as a pair of
the wall-clock time at which it arrives and the signalled seconds. -/
def notifyAll (s : RLState) (evs : List (ℚ × Nat)) : RLState :=
  evs.foldl (fun t ev => t.set_flood_wait ev.1 ev.2) s

end RLState

/-- State of `DownloadMetrics` (`performance_utils.py`, lines 152-228). -/
structure DownloadMetrics where
  total_downloads : Nat
  successful_downloads : Nat
  failed_downloads : Nat
  total_bytes : Nat
  start_time : ℚ
  download_times : List ℚ
deriving Repr, DecidableEq

namespace DownloadMetrics

/-- Embeds `DownloadMetrics.__init__`: all counters zero, empty duration list. -/
def init (startTime : ℚ) : DownloadMetrics :=
  { total_downloads := 0
    successful_downloads := 0
    failed_downloads := 0
    total_bytes := 0
    start_time := startTime
    download_times := [] }

/-- Embeds `DownloadMetrics.record_download` (lines 164-181): bump the total; on
success bump the success counter, add the bytes and (when the duration is
positive) append the duration; on failure bump only the failure counter. -/
def record_download (m : DownloadMetrics) (success : Bool) (fileSize : Nat)
    (duration : ℚ) : DownloadMetrics :=
  let m1 := { m with total_downloads := m.total_downloads + 1 }
  if success then
    { m1 with
      successful_downloads := m1.successful_downloads + 1
      total_bytes := m1.total_bytes + fileSize
      download_times :=
        if 0 < duration then m1.download_times ++ [duration]
        else m1.download_times }
  else
    { m1 with failed_downloads := m1.failed_downloads + 1 }

/-- The statistics dictionary produced by `DownloadMetrics.get_statistics`
(lines 183-209). The three duration keys are only inserted when
`download_times` is nonempty, hence `Option`. -/
structure Statistics where
  total_downloads : Nat
  successful : Nat
  failed : Nat
  success_rate : ℚ
  total_bytes : Nat
  total_mb : ℚ
  elapsed_seconds : ℚ
  average_speed_mbps : ℚ
  avg_download_time : Option ℚ
  min_download_time : Option ℚ
  max_download_time : Option ℚ
deriving Repr, DecidableEq

/-- Embeds `DownloadMetrics.get_statistics` (lines 183-209), with the
`datetime.now()` read passed in as `now`. -/
def get_statistics (m : DownloadMetrics) (now : ℚ) : Statistics :=
  let elapsed := now - m.start_time
  { total_downloads := m.total_downloads
    successful := m.successful_downloads
    failed := m.failed_downloads
    success_rate :=
      if 0 < m.total_downloads then
        (m.successful_downloads : ℚ) / (m.total_downloads : ℚ) * 100
      else 0
    total_bytes := m.total_bytes
    total_mb := (m.total_bytes : ℚ) / (1024 * 1024)
    elapsed_seconds := elapsed
    average_speed_mbps :=
      if 0 < elapsed then (m.total_bytes : ℚ) / (1024 * 1024) / elapsed
      else 0
    avg_download_time :=
      if m.download_times.isEmpty then none
      else some (m.download_times.sum / (m.download_times.length : ℚ))
    min_download_time :=
      if m.download_times.isEmpty then none else m.download_times.min?
    max_download_time :=
      if m.download_times.isEmpty then none else m.download_times.max? }

/-- Embeds `DownloadMetrics.reset` (lines 221-228): reinitialise every field,
taking the new `datetime.now()` as `now`. -/
def reset (_ : DownloadMetrics) (now : ℚ) : DownloadMetrics := init now

/-- One recorded outcome: the three arguments of `record_download`. -/
structure DownloadRecord where
  success : Bool
  file_size : Nat
  duration : ℚ
deriving Repr, DecidableEq

/-- Record a whole sequence of outcomes, in order. -/
def recordAll (m : DownloadMetrics) (rs : List DownloadRecord) : DownloadMetrics :=
  rs.foldl (fun t r => t.record_download r.success r.file_size r.duration) m

end DownloadMetrics

/-- Outcome of one call of the wrapper built by `async_retry`
(lines 122-148): the wrapped function's value is returned, an exception is
raised, or — when the `for` loop body never runs because
`max_attempts < 1` — the wrapper falls off its end and returns `None`. -/
inductive RetryOutcome (ε α : Type) where
  | value (a : α)
  | raised (e : ε)
  | nothing
deriving Repr, DecidableEq

/-- Full observable behaviour of one wrapper call: its outcome, how many
times the wrapped function was invoked, and the backoff delays slept (in
order, one before each re-attempt). -/
structure RetryTrace (ε α : Type) where
  outcome : RetryOutcome ε α
  calls : Nat
  delays : List ℚ
deriving Repr, DecidableEq

/-- The `for attempt in range(1, max_attempts + 1)` loop of the wrapper in
`async_retry`. `remaining` is how many attempts the loop may still run
(initially `max_attempts`), `attempt` the 1-based number of the current
attempt. The wrapped function is modelled as `op : Nat → Except ε α`
giving each attempt's result; `caught e` says whether `e` matches
`catch_exceptions` (an uncaught exception propagates at once). -/
def retryGo (baseDelay : ℚ) (exponential : Bool) (caught : ε → Bool)
    (op : Nat → Except ε α) : Nat → Nat → RetryTrace ε α
  | 0, _ => ⟨.nothing, 0, []⟩
  | remaining + 1, attempt =>
    match op attempt with
    | .ok a => ⟨.value a, 1, []⟩
    | .error e =>
      if caught e then
        match remaining with
        | 0 => ⟨.raised e, 1, []⟩
        | r + 1 =>
          let delay := if exponential then baseDelay * 2 ^ (attempt - 1) else baseDelay
          let t := retryGo baseDelay exponential caught op (r + 1) (attempt + 1)
          ⟨t.outcome, t.calls + 1, delay :: t.delays⟩
      else ⟨.raised e, 1, []⟩

/-- Embeds `async_retry` (lines 102-149): one call of the decorated function. -/
def async_retry (maxAttempts : Nat) (baseDelay : ℚ) (exponential : Bool)
    (caught : ε → Bool) (op : Nat → Except ε α) : RetryTrace ε α :=
  retryGo baseDelay exponential caught op maxAttempts 1

/-- Exceptions reaching `DownloadPool.download`: the `FloodWaitError` class
(whose `seconds` attribute may be absent, in which case `getattr` defaults
to 60) versus every other exception. -/
inductive TgError where
  | floodWait (seconds : Option Nat)
  | other (msg : String)
deriving Repr, DecidableEq

namespace TgError

/-- The `'FloodWaitError' in str(type(e).__name__)` test (line 294). -/
def isFloodWait : TgError → Bool
  | .floodWait _ => true
  | .other _ => false

/-- Embeds `getattr(e, 'seconds', 60)` (line 296). -/
def waitSeconds : TgError → Nat
  | .floodWait s => s.getD 60
  | .other _ => 60

end TgError

/-- State of `DownloadPool` (lines 231-353): the injected rate limiter and
metrics collector (`max_concurrent` and the semaphore bound only affect
scheduling, which the sequential embedding abstracts away). -/
structure PoolState where
  limiter : RLState
  metrics : DownloadMetrics
deriving Repr, DecidableEq

/-- One unit of work for the pool: the result the download function
produces when finally executed (`.error` = it raises), the wall-clock
seconds its execution takes, and the `file_size` keyword argument
(`kwargs.get('file_size', 0)`). -/
structure PoolTask (α : Type) where
  op : Except TgError α
  opDuration : ℚ
  file_size : Nat
deriving Repr

namespace DownloadPool

/-- Embeds `DownloadPool.download` (lines 257-308), entered at wall-clock time
`start`: acquire a rate-limiter token, run the download function, then on
success record `(True, file_size, duration)` into metrics and return the
value; on an exception, notify the limiter via `set_flood_wait` when it is
a `FloodWaitError`, record `(False, 0, duration)`, and re-raise (the
`.error` result). -/
def download (p : PoolState) (start : ℚ) (task : PoolTask α) :
    Except TgError α × PoolState :=
  let acq := p.limiter.acquire start
  let lim1 := acq.1
  let finish := acq.2 + task.opDuration
  let duration := finish - start
  match task.op with
  | .ok v =>
      (.ok v, { limiter := lim1
                metrics := p.metrics.record_download true task.file_size duration })
  | .error e =>
      let lim2 :=
        if e.isFloodWait then lim1.set_flood_wait finish e.waitSeconds else lim1
      (.error e, { limiter := lim2
                   metrics := p.metrics.record_download false 0 duration })

/-- Embeds `DownloadPool.download_batch` (lines 310-349): one `download` coroutine
per task, gathered with `return_exceptions=True`, so each task's raised
exception is captured as that task's entry of the result list and the
remaining coroutines keep running. Embedded as the in-order sequencing of
the coroutines, which is the result order `asyncio.gather` guarantees. -/
def download_batch (p : PoolState) (start : ℚ) :
    List (PoolTask α) → List (Except TgError α) × PoolState
  | [] => ([], p)
  | task :: rest =>
    let d := download p start task
    let b := download_batch d.2 start rest
    (d.1 :: b.1, b.2)

end DownloadPool

/-! ## Helper lemmas -/

theorem dequeAppend_length_le (maxlen : Nat) (xs : List ℚ) (x : ℚ)
    (h : xs.length ≤ maxlen) : (dequeAppend maxlen xs x).length ≤ maxlen := by
  unfold dequeAppend
  dsimp only
  split_ifs with hlt
  · simp only [List.length_drop]
    omega
  · simp only [List.length_append, List.length_singleton] at hlt ⊢
    omega

theorem floodWaitStep_preserves (s : RLState) (now : ℚ) :
    (s.floodWaitStep now).1.calls_per_second = s.calls_per_second ∧
    (s.floodWaitStep now).1.burst_size = s.burst_size ∧
    (s.floodWaitStep now).1.call_times = s.call_times ∧
    now ≤ (s.floodWaitStep now).2 := by
  unfold RLState.floodWaitStep
  rcases s with ⟨cps, bs, ad, ct, fwu⟩
  cases fwu with
  | none => exact ⟨rfl, rfl, rfl, le_refl _⟩
  | some u =>
    dsimp only
    split_ifs with h
    · exact ⟨rfl, rfl, rfl, le_of_lt h.2⟩
    · exact ⟨rfl, rfl, rfl, le_refl _⟩

theorem burstStep_ge (s : RLState) (now : ℚ) : now ≤ s.burstStep now := by
  unfold RLState.burstStep
  dsimp only
  split_ifs with h1 h2
  · linarith
  · exact le_refl _
  · exact le_refl _

theorem burstStep_full_ge (s : RLState) (now : ℚ)
    (hfull : s.burst_size ≤ s.call_times.length) :
    s.call_times.headD 0 + (s.burst_size : ℚ) / s.calls_per_second ≤
      s.burstStep now := by
  unfold RLState.burstStep
  dsimp only
  rw [if_pos hfull]
  split_ifs with h2
  · linarith
  · linarith

theorem acquire_time_eq (s : RLState) (now : ℚ) :
    (s.acquire now).2 = ((s.floodWaitStep now).1).burstStep (s.floodWaitStep now).2 :=
  rfl

theorem acquire_call_times_eq (s : RLState) (now : ℚ) :
    (s.acquire now).1.call_times =
      dequeAppend (s.floodWaitStep now).1.burst_size
        (s.floodWaitStep now).1.call_times ((s.acquire now).2) :=
  rfl

theorem acquire_flood_wait_eq (s : RLState) (now : ℚ) :
    (s.acquire now).1.flood_wait_until = (s.floodWaitStep now).1.flood_wait_until :=
  rfl

theorem acquire_burst_size_eq (s : RLState) (now : ℚ) :
    (s.acquire now).1.burst_size = s.burst_size := by
  have h := (floodWaitStep_preserves s now).2.1
  calc (s.acquire now).1.burst_size
      = (s.floodWaitStep now).1.burst_size := rfl
    _ = s.burst_size := h

theorem set_flood_wait_until_eq (s : RLState) (t0 : ℚ) (sec : Nat) :
    (s.set_flood_wait t0 sec).flood_wait_until = some (t0 + (sec : ℚ) + 1) := by
  unfold RLState.set_flood_wait
  dsimp only
  split_ifs <;> rfl

theorem set_flood_wait_cps_ge (s : RLState) (t0 : ℚ) (sec : Nat) :
    min s.calls_per_second (2/25) ≤ (s.set_flood_wait t0 sec).calls_per_second := by
  unfold RLState.set_flood_wait
  dsimp only
  split_ifs with h
  · have h2 : (2:ℚ)/25 ≤ s.calls_per_second * (4/5) := by
      have := h.2
      linarith
    exact le_trans (min_le_right _ _) h2
  · exact min_le_left _ _

theorem set_flood_wait_cps_frozen (s : RLState) (t0 : ℚ) (sec : Nat)
    (h : s.calls_per_second ≤ 1/10) :
    (s.set_flood_wait t0 sec).calls_per_second = s.calls_per_second := by
  unfold RLState.set_flood_wait
  dsimp only
  split_ifs with hc
  · exact absurd hc.2 (not_lt.mpr h)
  · rfl

theorem notifyAll_cps_ge (s : RLState) (evs : List (ℚ × Nat)) :
    min s.calls_per_second (2/25) ≤ (s.notifyAll evs).calls_per_second := by
  induction evs generalizing s with
  | nil => exact min_le_left _ _
  | cons ev evs ih =>
    have hstep := set_flood_wait_cps_ge s ev.1 ev.2
    have htail := ih (s.set_flood_wait ev.1 ev.2)
    have hmin : min s.calls_per_second (2/25) ≤
        min (s.set_flood_wait ev.1 ev.2).calls_per_second (2/25) :=
      le_min hstep (min_le_right _ _)
    have hun : (s.notifyAll (ev :: evs)) =
        ((s.set_flood_wait ev.1 ev.2).notifyAll evs) := rfl
    rw [hun]
    exact le_trans hmin htail

theorem notifyAll_cps_frozen (s : RLState) (evs : List (ℚ × Nat))
    (h : s.calls_per_second ≤ 1/10) :
    (s.notifyAll evs).calls_per_second = s.calls_per_second := by
  induction evs generalizing s with
  | nil => rfl
  | cons ev evs ih =>
    have hstep := set_flood_wait_cps_frozen s ev.1 ev.2 h
    have hun : (s.notifyAll (ev :: evs)) =
        ((s.set_flood_wait ev.1 ev.2).notifyAll evs) := rfl
    rw [hun, ih _ (by rw [hstep]; exact h), hstep]

/-! ## Claims -/

/-- C2, counterexample: one `set_flood_wait` in adaptive mode from the
positive initial rate 0.11 calls/sec leaves `calls_per_second` at
0.088 < 0.1, refuting "callsPerSecond never becomes less than 0.1": the
guard `calls_per_second > 0.1` is checked before damping, not after, so
one damping step from just above the threshold undershoots the floor. -/
theorem claim2_rate_floor_counterexample :
    ((RLState.init (11/100) 5 true).set_flood_wait 0 5).calls_per_second < 1/10 := by
  norm_num [RLState.init, RLState.set_flood_wait]

/-- C2, amended: in adaptive mode `set_flood_wait` multiplies
`calls_per_second` by 0.8 only when the current rate exceeds 0.1, so for
every sequence of overload notifications from a positive initial rate the
rate never becomes less than `min initialRate 0.08` (0.08 = 0.8 × 0.1, the
worst single undershoot), and a rate already at or below 0.1 never changes
again. -/
theorem claim2_rate_floor_amended (s : RLState) (evs : List (ℚ × Nat))
    (_hpos : 0 < s.calls_per_second) :
    min s.calls_per_second (2/25) ≤ (s.notifyAll evs).calls_per_second ∧
    (s.calls_per_second ≤ 1/10 →
      (s.notifyAll evs).calls_per_second = s.calls_per_second) :=
  ⟨notifyAll_cps_ge s evs, fun h => notifyAll_cps_frozen s evs h⟩

/-- Witness for C2's amended theorem at initial rate 0.05 (below the
damping guard) and one notification. -/
theorem claim2_rate_floor_witness :
    min ((RLState.init (1/20) 5 true).calls_per_second) (2/25) ≤
      ((RLState.init (1/20) 5 true).notifyAll [(0, 5)]).calls_per_second ∧
    ((RLState.init (1/20) 5 true).notifyAll [(0, 5)]).calls_per_second =
      (RLState.init (1/20) 5 true).calls_per_second :=
  ⟨(claim2_rate_floor_amended (RLState.init (1/20) 5 true) [(0, 5)]
      (by norm_num [RLState.init])).1,
   (claim2_rate_floor_amended (RLState.init (1/20) 5 true) [(0, 5)]
      (by norm_num [RLState.init])).2 (by norm_num [RLState.init])⟩

/-- C10: `set_flood_wait sec` at time `t0` installs a window ending
`t0 + sec + 1` (the signalled cooldown plus the hard-coded one-second
buffer), and an `acquire` issued at `now` inside the window resumes from
the flood-wait sleep exactly at `t0 + sec + 1`, i.e. waits
`t0 + sec + 1 - now ≤ sec + 1` — up to one second longer than the
signalled duration. -/
theorem claim10_flood_window_buffer (s : RLState) (t0 now : ℚ) (sec : Nat)
    (h0 : 0 ≤ t0) (h1 : t0 ≤ now) (h2 : now < t0 + (sec : ℚ) + 1) :
    (s.set_flood_wait t0 sec).flood_wait_until = some (t0 + (sec : ℚ) + 1) ∧
    ((s.set_flood_wait t0 sec).floodWaitStep now).2 = t0 + (sec : ℚ) + 1 ∧
    ((s.set_flood_wait t0 sec).floodWaitStep now).2 - now ≤ (sec : ℚ) + 1 := by
  have hfwu := set_flood_wait_until_eq s t0 sec
  have hne : t0 + (sec : ℚ) + 1 ≠ 0 := by positivity
  have hstep : ((s.set_flood_wait t0 sec).floodWaitStep now).2 = t0 + (sec : ℚ) + 1 := by
    unfold RLState.floodWaitStep
    rw [hfwu]
    dsimp only
    rw [if_pos ⟨hne, h2⟩]
  exact ⟨hfwu, hstep, by rw [hstep]; linarith⟩

/-- Witness for C10 at `t0 = 0`, `sec = 3`, `now = 2`. -/
theorem claim10_flood_window_buffer_witness :
    ((RLState.init 1 5 true).set_flood_wait 0 3).flood_wait_until =
      some ((0 : ℚ) + (3 : ℚ) + 1) ∧
    (((RLState.init 1 5 true).set_flood_wait 0 3).floodWaitStep 2).2 =
      (0 : ℚ) + (3 : ℚ) + 1 ∧
    (((RLState.init 1 5 true).set_flood_wait 0 3).floodWaitStep 2).2 - 2 ≤
      (3 : ℚ) + 1 :=
  claim10_flood_window_buffer (RLState.init 1 5 true) 0 2 3
    (by norm_num) (by norm_num) (by norm_num)

/-- C5: after `set_flood_wait sec` at time `t0`, an `acquire` issued at any
`now` before the signalled `sec` seconds have elapsed releases its call no
earlier than `t0 + sec` (it suspends at least until the cooldown elapses),
and the state it leaves behind has `flood_wait_until = none` — the
cooldown is cleared, so a subsequent `acquire` is no longer blocked by
it. -/
theorem claim5_cooldown_suspend_clear (s : RLState) (t0 now : ℚ) (sec : Nat)
    (h0 : 0 ≤ t0) (h1 : now < t0 + (sec : ℚ)) :
    t0 + (sec : ℚ) ≤ ((s.set_flood_wait t0 sec).acquire now).2 ∧
    ((s.set_flood_wait t0 sec).acquire now).1.flood_wait_until = none := by
  have hfwu := set_flood_wait_until_eq s t0 sec
  have hne : t0 + (sec : ℚ) + 1 ≠ 0 := by positivity
  have h2 : now < t0 + (sec : ℚ) + 1 := by linarith
  have hstep : ((s.set_flood_wait t0 sec).floodWaitStep now) =
      ({ s.set_flood_wait t0 sec with flood_wait_until := none },
        t0 + (sec : ℚ) + 1) := by
    unfold RLState.floodWaitStep
    rw [hfwu]
    dsimp only
    rw [if_pos ⟨hne, h2⟩]
  constructor
  · rw [acquire_time_eq, hstep]
    have hb := burstStep_ge ({ s.set_flood_wait t0 sec with flood_wait_until := none })
      (t0 + (sec : ℚ) + 1)
    dsimp only at hb ⊢
    linarith
  · rw [acquire_flood_wait_eq, hstep]

/-- Witness for C5 at `t0 = 0`, `sec = 3`, `now = 2`. -/
theorem claim5_cooldown_suspend_clear_witness :
    (0 : ℚ) + (3 : ℚ) ≤ (((RLState.init 1 5 true).set_flood_wait 0 3).acquire 2).2 ∧
    (((RLState.init 1 5 true).set_flood_wait 0 3).acquire 2).1.flood_wait_until = none :=
  claim5_cooldown_suspend_clear (RLState.init 1 5 true) 0 2 3
    (by norm_num) (by norm_num)

/-- C4: with no overload signal pending, when the `call_times` deque
already holds `burst_size` timestamps (so the next `acquire` is the
`burst_size + 1`-th call of the rolling window), the time at which that
`acquire` releases its call is at least
`window's first call + burst_size / calls_per_second`; and the deque
invariant: every `acquire` leaves at most `burst_size` recorded
timestamps. -/
theorem claim4_burst_window (s : RLState) (now : ℚ)
    (_hb : 0 < s.burst_size)
    (hfull : s.call_times.length = s.burst_size)
    (_hcps : 0 < s.calls_per_second) :
    s.call_times.headD 0 + (s.burst_size : ℚ) / s.calls_per_second ≤
      (s.acquire now).2 ∧
    ∀ t : RLState, ∀ m : ℚ, t.call_times.length ≤ t.burst_size →
      ((t.acquire m).1).call_times.length ≤ t.burst_size := by
  constructor
  · have hpre := floodWaitStep_preserves s now
    have hge := burstStep_full_ge (s.floodWaitStep now).1 (s.floodWaitStep now).2
      (by rw [hpre.2.1, hpre.2.2.1, hfull])
    rw [acquire_time_eq]
    rw [hpre.1, hpre.2.1, hpre.2.2.1] at hge
    exact hge
  · intro t m hlen
    have hpre := floodWaitStep_preserves t m
    rw [acquire_call_times_eq, hpre.2.1, hpre.2.2.1]
    exact dequeAppend_length_le t.burst_size t.call_times _ hlen

/-- Witness for C4: limiter with `calls_per_second = 1`, `burst_size = 2`,
full deque `[0, 1]`, acquiring at `now = 3/2`; the release time is forced
to `0 + 2/1 = 2`. -/
theorem claim4_burst_window_witness :
    ([(0 : ℚ), 1].headD 0 + ((2 : Nat) : ℚ) / 1 ≤
      ((⟨1, 2, true, [0, 1], none⟩ : RLState).acquire (3/2)).2) ∧
    (((⟨1, 2, true, [0, 1], none⟩ : RLState).acquire (3/2)).1).call_times.length ≤
      (⟨1, 2, true, [0, 1], none⟩ : RLState).burst_size :=
  ⟨(claim4_burst_window (⟨1, 2, true, [0, 1], none⟩ : RLState) (3/2)
      (by norm_num) (by norm_num) (by norm_num)).1,
   (claim4_burst_window (⟨1, 2, true, [0, 1], none⟩ : RLState) (3/2)
      (by norm_num) (by norm_num) (by norm_num)).2
     (⟨1, 2, true, [0, 1], none⟩ : RLState) (3/2) (by norm_num)⟩

theorem record_download_times_eq (m : DownloadMetrics) (su : Bool)
    (fs : Nat) (dur : ℚ) :
    (m.record_download su fs dur).download_times =
      if su && decide (0 < dur) then m.download_times ++ [dur]
      else m.download_times := by
  unfold DownloadMetrics.record_download
  cases su <;> dsimp only
  · simp
  · by_cases hd : 0 < dur <;> simp [hd]

theorem recordAll_download_times (m : DownloadMetrics)
    (rs : List DownloadMetrics.DownloadRecord) :
    (m.recordAll rs).download_times =
      m.download_times ++
        (rs.filter (fun r => r.success && decide (0 < r.duration))).map
          (fun r => r.duration) := by
  induction rs generalizing m with
  | nil => simp [DownloadMetrics.recordAll]
  | cons r rs ih =>
    have hstep : (m.recordAll (r :: rs)) =
        ((m.record_download r.success r.file_size r.duration).recordAll rs) := rfl
    rw [hstep, ih, record_download_times_eq]
    simp only [List.filter_cons]
    by_cases hr : (r.success && decide (0 < r.duration)) = true
    · simp [hr]
    · simp [hr]

/-- C7: the duration list a metrics collector accumulates from any sequence
of recorded outcomes is exactly the durations of the successful records
(with positive duration), in order — no failed record's duration enters it
— and the min/max/avg duration statistics of the snapshot are computed
from precisely that list. -/
theorem claim7_success_only_durations (t now : ℚ)
    (rs : List DownloadMetrics.DownloadRecord) :
    ((DownloadMetrics.init t).recordAll rs).download_times =
      (rs.filter (fun r => r.success && decide (0 < r.duration))).map
        (fun r => r.duration) ∧
    (((DownloadMetrics.init t).recordAll rs).get_statistics now).min_download_time =
      (if ((rs.filter (fun r => r.success && decide (0 < r.duration))).map
            (fun r => r.duration)).isEmpty then none
       else ((rs.filter (fun r => r.success && decide (0 < r.duration))).map
            (fun r => r.duration)).min?) ∧
    (((DownloadMetrics.init t).recordAll rs).get_statistics now).max_download_time =
      (if ((rs.filter (fun r => r.success && decide (0 < r.duration))).map
            (fun r => r.duration)).isEmpty then none
       else ((rs.filter (fun r => r.success && decide (0 < r.duration))).map
            (fun r => r.duration)).max?) ∧
    (((DownloadMetrics.init t).recordAll rs).get_statistics now).avg_download_time =
      (if ((rs.filter (fun r => r.success && decide (0 < r.duration))).map
            (fun r => r.duration)).isEmpty then none
       else some (((rs.filter (fun r => r.success && decide (0 < r.duration))).map
            (fun r => r.duration)).sum /
          ((((rs.filter (fun r => r.success && decide (0 < r.duration))).map
            (fun r => r.duration)).length : Nat) : ℚ))) := by
  have hdt : ((DownloadMetrics.init t).recordAll rs).download_times =
      (rs.filter (fun r => r.success && decide (0 < r.duration))).map
        (fun r => r.duration) := by
    rw [recordAll_download_times]
    simp [DownloadMetrics.init]
  refine ⟨hdt, ?_, ?_, ?_⟩ <;>
    simp only [DownloadMetrics.get_statistics, hdt]

/-- C8: recording two successes of 1 MB and 2 MB and one failure into a
fresh collector yields `total_downloads = 3`, `successful = 2`,
`failed = 1`, `success_rate = 200/3 ≈ 66.7`, `total_bytes = 3·1024·1024`;
after `reset` every counter is zero and the duration list is empty. -/
theorem claim8_snapshot_and_reset :
    (((DownloadMetrics.init 0).recordAll
        [⟨true, 1048576, 2⟩, ⟨true, 2097152, 3⟩, ⟨false, 0, 4⟩]).get_statistics 10).total_downloads = 3 ∧
    (((DownloadMetrics.init 0).recordAll
        [⟨true, 1048576, 2⟩, ⟨true, 2097152, 3⟩, ⟨false, 0, 4⟩]).get_statistics 10).successful = 2 ∧
    (((DownloadMetrics.init 0).recordAll
        [⟨true, 1048576, 2⟩, ⟨true, 2097152, 3⟩, ⟨false, 0, 4⟩]).get_statistics 10).failed = 1 ∧
    (((DownloadMetrics.init 0).recordAll
        [⟨true, 1048576, 2⟩, ⟨true, 2097152, 3⟩, ⟨false, 0, 4⟩]).get_statistics 10).success_rate = 200/3 ∧
    (333/5 : ℚ) < (((DownloadMetrics.init 0).recordAll
        [⟨true, 1048576, 2⟩, ⟨true, 2097152, 3⟩, ⟨false, 0, 4⟩]).get_statistics 10).success_rate ∧
    (((DownloadMetrics.init 0).recordAll
        [⟨true, 1048576, 2⟩, ⟨true, 2097152, 3⟩, ⟨false, 0, 4⟩]).get_statistics 10).success_rate < (667/10 : ℚ) ∧
    (((DownloadMetrics.init 0).recordAll
        [⟨true, 1048576, 2⟩, ⟨true, 2097152, 3⟩, ⟨false, 0, 4⟩]).get_statistics 10).total_bytes = 3 * 1024 * 1024 ∧
    (((DownloadMetrics.init 0).recordAll
        [⟨true, 1048576, 2⟩, ⟨true, 2097152, 3⟩, ⟨false, 0, 4⟩]).reset 20).total_downloads = 0 ∧
    (((DownloadMetrics.init 0).recordAll
        [⟨true, 1048576, 2⟩, ⟨true, 2097152, 3⟩, ⟨false, 0, 4⟩]).reset 20).successful_downloads = 0 ∧
    (((DownloadMetrics.init 0).recordAll
        [⟨true, 1048576, 2⟩, ⟨true, 2097152, 3⟩, ⟨false, 0, 4⟩]).reset 20).failed_downloads = 0 ∧
    (((DownloadMetrics.init 0).recordAll
        [⟨true, 1048576, 2⟩, ⟨true, 2097152, 3⟩, ⟨false, 0, 4⟩]).reset 20).total_bytes = 0 ∧
    (((DownloadMetrics.init 0).recordAll
        [⟨true, 1048576, 2⟩, ⟨true, 2097152, 3⟩, ⟨false, 0, 4⟩]).reset 20).download_times = [] := by
  refine ⟨rfl, rfl, rfl, by norm_num [DownloadMetrics.get_statistics,
    DownloadMetrics.recordAll, DownloadMetrics.record_download,
    DownloadMetrics.init], by norm_num [DownloadMetrics.get_statistics,
    DownloadMetrics.recordAll, DownloadMetrics.record_download,
    DownloadMetrics.init], by norm_num [DownloadMetrics.get_statistics,
    DownloadMetrics.recordAll, DownloadMetrics.record_download,
    DownloadMetrics.init], rfl, rfl, rfl, rfl, rfl, rfl⟩

theorem retryGo_error_step (d : ℚ) (expo : Bool) (caught : ε → Bool)
    (op : Nat → Except ε α) (r a : Nat) (e : ε)
    (he : op a = Except.error e) (hce : caught e = true) :
    retryGo d expo caught op (r + 1 + 1) a =
      ⟨(retryGo d expo caught op (r + 1) (a + 1)).outcome,
       (retryGo d expo caught op (r + 1) (a + 1)).calls + 1,
       (if expo then d * 2 ^ (a - 1) else d) ::
         (retryGo d expo caught op (r + 1) (a + 1)).delays⟩ := by
  conv_lhs => rw [retryGo]
  rw [he]
  simp [hce]

theorem retryGo_error_last (d : ℚ) (expo : Bool) (caught : ε → Bool)
    (op : Nat → Except ε α) (a : Nat) (e : ε)
    (he : op a = Except.error e) (hce : caught e = true) :
    retryGo d expo caught op 1 a = ⟨RetryOutcome.raised e, 1, []⟩ := by
  conv_lhs => rw [retryGo]
  rw [he]
  simp [hce]

theorem retryGo_ok_step (d : ℚ) (expo : Bool) (caught : ε → Bool)
    (op : Nat → Except ε α) (m a : Nat) (v : α)
    (hok : op a = Except.ok v) :
    retryGo d expo caught op (m + 1) a = ⟨RetryOutcome.value v, 1, []⟩ := by
  conv_lhs => rw [retryGo]
  rw [hok]

theorem retryGo_all_fail (d : ℚ) (expo : Bool) (caught : ε → Bool)
    (op : Nat → Except ε α)
    (hop : ∀ k, ∃ e, op k = Except.error e ∧ caught e = true) :
    ∀ n a, 0 < n → 1 ≤ a →
      (retryGo d expo caught op n a).calls = n ∧
      (∃ e, op (a + n - 1) = Except.error e ∧
        (retryGo d expo caught op n a).outcome = RetryOutcome.raised e) ∧
      (retryGo d expo caught op n a).delays =
        (List.range (n - 1)).map
          (fun i => if expo then d * 2 ^ (a - 1 + i) else d) := by
  intro n
  induction n with
  | zero => intro a h _; exact absurd h (by omega)
  | succ m ih =>
    intro a _ ha
    obtain ⟨e, he, hce⟩ := hop a
    cases m with
    | zero =>
      rw [retryGo_error_last d expo caught op a e he hce]
      refine ⟨rfl, ⟨e, ?_, rfl⟩, by simp⟩
      rw [show a + 1 - 1 = a by omega]; exact he
    | succ r =>
      obtain ⟨hcalls, ⟨e2, he2, hout⟩, hdel⟩ := ih (a + 1) (by omega) (by omega)
      rw [retryGo_error_step d expo caught op r a e he hce]
      refine ⟨by dsimp only; rw [hcalls], ⟨e2, ?_, hout⟩, ?_⟩
      · rw [show a + (r + 1 + 1) - 1 = a + 1 + (r + 1) - 1 by omega]; exact he2
      · dsimp only
        rw [hdel]
        simp only [Nat.add_sub_cancel]
        rw [List.range_succ_eq_map, List.map_cons, List.map_map]
        congr 1
        refine List.map_congr_left ?_
        intro i _
        show (if expo = true then d * 2 ^ (a + i) else d)
          = if expo = true then d * 2 ^ (a - 1 + (i + 1)) else d
        rw [show a - 1 + (i + 1) = a + i from by omega]

theorem retryGo_succeeds (d : ℚ) (expo : Bool) (caught : ε → Bool)
    (op : Nat → Except ε α) (v : α) :
    ∀ k n a,
      (∀ j, a ≤ j → j < a + k → ∃ e, op j = Except.error e ∧ caught e = true) →
      op (a + k) = Except.ok v → k < n →
      (retryGo d expo caught op n a).outcome = RetryOutcome.value v ∧
      (retryGo d expo caught op n a).calls = k + 1 := by
  intro k
  induction k with
  | zero =>
    intro n a _ hok hn
    cases n with
    | zero => exact absurd hn (by omega)
    | succ m =>
      rw [Nat.add_zero] at hok
      rw [retryGo_ok_step d expo caught op m a v hok]
      exact ⟨rfl, rfl⟩
  | succ k ih =>
    intro n a hfail hok hn
    obtain ⟨e, he, hce⟩ := hfail a (le_refl a) (by omega)
    cases n with
    | zero => exact absurd hn (by omega)
    | succ m =>
      cases m with
      | zero => exact absurd hn (by omega)
      | succ r =>
        have hrec := ih (r + 1) (a + 1)
          (fun j h1 h2 => hfail j (by omega) (by omega))
          (by rw [show a + 1 + k = a + (k + 1) by omega]; exact hok)
          (by omega)
        rw [retryGo_error_step d expo caught op r a e he hce]
        exact ⟨hrec.1, by dsimp only; rw [hrec.2]⟩

/-- C3: for the retry wrapper with `maxAttempts`, `baseDelay` and the
`exponential` flag: an operation that fails with a caught (retryable)
exception on every attempt makes the wrapper raise the last attempt's
exception after exactly `maxAttempts` invocations, with the backoff delay
before the re-attempt following failed attempt `k` being
`baseDelay * 2 ^ (k - 1)` when exponential and `baseDelay` otherwise (the
delays list is `[baseDelay * 2 ^ 0, …, baseDelay * 2 ^ (maxAttempts - 2)]`);
an operation that fails retryably `k < maxAttempts` times and then
succeeds makes the wrapper return the success value after exactly `k + 1`
invocations. -/
theorem claim3_retry_schedule (maxAttempts k : Nat) (d : ℚ) (expo : Bool)
    (caught : ε → Bool) (opFail opMix : Nat → Except ε α) (v : α) :
    (1 ≤ maxAttempts →
      (∀ j, ∃ e, opFail j = Except.error e ∧ caught e = true) →
      (async_retry maxAttempts d expo caught opFail).calls = maxAttempts ∧
      (∃ e, opFail maxAttempts = Except.error e ∧
        (async_retry maxAttempts d expo caught opFail).outcome =
          RetryOutcome.raised e) ∧
      (async_retry maxAttempts d expo caught opFail).delays =
        (List.range (maxAttempts - 1)).map
          (fun i => if expo then d * 2 ^ i else d)) ∧
    ((∀ j, 1 ≤ j → j < 1 + k → ∃ e, opMix j = Except.error e ∧ caught e = true) →
      opMix (1 + k) = Except.ok v → k < maxAttempts →
      (async_retry maxAttempts d expo caught opMix).outcome =
        RetryOutcome.value v ∧
      (async_retry maxAttempts d expo caught opMix).calls = k + 1) := by
  constructor
  · intro hma hop
    obtain ⟨hcalls, ⟨e, he, hout⟩, hdel⟩ :=
      retryGo_all_fail d expo caught opFail hop maxAttempts 1 (by omega) (le_refl 1)
    refine ⟨hcalls, ⟨e, ?_, hout⟩, ?_⟩
    · rw [show maxAttempts = 1 + maxAttempts - 1 by omega]; exact he
    · rw [show (async_retry maxAttempts d expo caught opFail).delays
            = (retryGo d expo caught opFail maxAttempts 1).delays from rfl, hdel]
      refine List.map_congr_left ?_
      intro i _
      simp
  · intro hfail hok hn
    exact retryGo_succeeds d expo caught opMix v k maxAttempts 1 hfail hok hn

/-- Witness for C3: `maxAttempts = 3`, `baseDelay = 1`, exponential, with
an always-failing operation (3 calls then raise) and a fails-twice-then-42
operation (returns 42 after 3 calls). -/
theorem claim3_retry_schedule_witness :
    (async_retry 3 1 true (fun _ => true)
      (fun _ => (Except.error 7 : Except Nat Nat))).calls = 3 ∧
    (async_retry 3 1 true (fun _ => true)
      (fun j => if j ≤ 2 then Except.error 7
                else (Except.ok 42 : Except Nat Nat))).outcome =
      RetryOutcome.value 42 ∧
    (async_retry 3 1 true (fun _ => true)
      (fun j => if j ≤ 2 then Except.error 7
                else (Except.ok 42 : Except Nat Nat))).calls = 2 + 1 := by
  have h := claim3_retry_schedule (ε := Nat) (α := Nat) 3 2 1 true (fun _ => true)
    (fun _ => Except.error 7)
    (fun j => if j ≤ 2 then Except.error 7 else Except.ok 42) 42
  have h1 := h.1 (by omega) (fun j => ⟨7, rfl, rfl⟩)
  have h2 := h.2 (fun j hj1 hj2 => ⟨7, by simp [show j ≤ 2 by omega], rfl⟩)
    (by norm_num) (by omega)
  exact ⟨h1.1, h2.1, h2.2⟩

/-- C9: with `max_attempts = 0` (the spec's precondition `maxAttempts ≥ 1`
violated), the `range(1, max_attempts + 1)` loop body never runs, so the
wrapper returns Python `None` without ever invoking the wrapped operation:
zero calls, no delays, outcome `nothing`. -/
theorem claim9_zero_attempts (d : ℚ) (expo : Bool) (caught : ε → Bool)
    (op : Nat → Except ε α) :
    async_retry 0 d expo caught op =
      ⟨RetryOutcome.nothing, 0, []⟩ :=
  rfl

theorem download_batch_length (p : PoolState) (start : ℚ)
    (ts : List (PoolTask α)) :
    (DownloadPool.download_batch p start ts).1.length = ts.length := by
  induction ts generalizing p with
  | nil => rfl
  | cons t ts ih => simp [DownloadPool.download_batch, ih]

theorem download_batch_get (start : ℚ) :
    ∀ (ts : List (PoolTask α)) (p : PoolState) (i : Nat) (h : i < ts.length),
      (DownloadPool.download_batch p start ts).1.get? i =
        some (DownloadPool.download
          (DownloadPool.download_batch p start (ts.take i)).2 start
          (ts.get ⟨i, h⟩)).1 := by
  intro ts
  induction ts with
  | nil => intro p i h; exact absurd h (by simp)
  | cons t rest ih =>
    intro p i h
    cases i with
    | zero => rfl
    | succ j =>
      exact ih (DownloadPool.download p start t).2 j (Nat.lt_of_succ_lt_succ h)

theorem download_batch_failing_entry (start : ℚ) (e : TgError) (dur : ℚ)
    (fs : Nat) :
    ∀ (pre post : List (PoolTask Nat)) (p : PoolState),
      (DownloadPool.download_batch p start
          (pre ++ (⟨Except.error e, dur, fs⟩ : PoolTask Nat) :: post)).1.get? pre.length
        = some (Except.error e) := by
  intro pre
  induction pre with
  | nil => intro post p; rfl
  | cons t pre ih => intro post p; exact ih post (DownloadPool.download p start t).2

/-- C1, counterexample: a task whose operation fails is NOT returned by the
pool's `download` (submitOne) as a non-exception Failure value — `download`
re-raises, i.e. its result is the propagated exception itself, refuting
"never re-raised past the pool boundary" at the `download` boundary (only
`download_batch` converts it to data, via `return_exceptions=True`). -/
theorem claim1_failure_counterexample :
    (DownloadPool.download
      (⟨RLState.init 1 5 true, DownloadMetrics.init 0⟩ : PoolState) 0
      (⟨Except.error (TgError.other "boom"), 1, 0⟩ : PoolTask Nat)).1
      = Except.error (TgError.other "boom") := rfl

/-- C1, amended: when a task's operation fails, `download` records a
failure outcome (success=false, 0 bytes, the elapsed duration) into the
metrics collector, calls the limiter's `set_flood_wait` exactly when the
failure is a `FloodWaitError`, and then RE-RAISES the exception out of
`download`; the exception is only returned as data at the `download_batch`
boundary, where `gather(..., return_exceptions=True)` stores it at the
failing task's own index and every sibling task still contributes its
entry (the result list keeps full length). -/
theorem claim1_failure_amended (p : PoolState) (start : ℚ) (e : TgError)
    (dur : ℚ) (fs : Nat) (pre post : List (PoolTask Nat)) :
    (DownloadPool.download p start (⟨Except.error e, dur, fs⟩ : PoolTask Nat)).1
      = Except.error e ∧
    (DownloadPool.download p start (⟨Except.error e, dur, fs⟩ : PoolTask Nat)).2.metrics
      = p.metrics.record_download false 0
          ((p.limiter.acquire start).2 + dur - start) ∧
    (DownloadPool.download p start (⟨Except.error e, dur, fs⟩ : PoolTask Nat)).2.limiter
      = (if e.isFloodWait then
          ((p.limiter.acquire start).1).set_flood_wait
            ((p.limiter.acquire start).2 + dur) e.waitSeconds
         else (p.limiter.acquire start).1) ∧
    (DownloadPool.download_batch p start
        (pre ++ (⟨Except.error e, dur, fs⟩ : PoolTask Nat) :: post)).1.length
      = pre.length + 1 + post.length ∧
    (DownloadPool.download_batch p start
        (pre ++ (⟨Except.error e, dur, fs⟩ : PoolTask Nat) :: post)).1.get? pre.length
      = some (Except.error e) := by
  refine ⟨rfl, rfl, rfl, ?_, download_batch_failing_entry start e dur fs pre post p⟩
  rw [download_batch_length]
  simp only [List.length_append, List.length_cons]
  omega

/-- C6: `download_batch` returns exactly one result per submitted task, and
the `i`-th result is the result of the `i`-th submitted task — `download`
applied to it from the pool state reached after the first `i` tasks —
independent of completion order (the embedding realises `asyncio.gather`'s
guaranteed submission-order collection). -/
theorem claim6_batch_order (p : PoolState) (start : ℚ)
    (ts : List (PoolTask α)) :
    (DownloadPool.download_batch p start ts).1.length = ts.length ∧
    ∀ i : Nat, ∀ h : i < ts.length,
      (DownloadPool.download_batch p start ts).1.get? i =
        some (DownloadPool.download
          (DownloadPool.download_batch p start (ts.take i)).2 start
          (ts.get ⟨i, h⟩)).1 :=
  ⟨download_batch_length p start ts, fun i h => download_batch_get start ts p i h⟩

/-- Witness for C6 on a three-task batch (middle task failing), probing
index 1. -/
theorem claim6_batch_order_witness :
    (DownloadPool.download_batch
      (⟨RLState.init 1 5 true, DownloadMetrics.init 0⟩ : PoolState) 0
      ([⟨Except.ok 1, 1, 0⟩, ⟨Except.error (TgError.other "x"), 1, 0⟩,
        ⟨Except.ok 2, 1, 0⟩] : List (PoolTask Nat))).1.length = 3 ∧
    (DownloadPool.download_batch
      (⟨RLState.init 1 5 true, DownloadMetrics.init 0⟩ : PoolState) 0
      ([⟨Except.ok 1, 1, 0⟩, ⟨Except.error (TgError.other "x"), 1, 0⟩,
        ⟨Except.ok 2, 1, 0⟩] : List (PoolTask Nat))).1.get? 1 =
      some (DownloadPool.download
        (DownloadPool.download_batch
          (⟨RLState.init 1 5 true, DownloadMetrics.init 0⟩ : PoolState) 0
          (([⟨Except.ok 1, 1, 0⟩, ⟨Except.error (TgError.other "x"), 1, 0⟩,
            ⟨Except.ok 2, 1, 0⟩] : List (PoolTask Nat)).take 1)).2 0
        (([⟨Except.ok 1, 1, 0⟩, ⟨Except.error (TgError.other "x"), 1, 0⟩,
          ⟨Except.ok 2, 1, 0⟩] : List (PoolTask Nat)).get ⟨1, by decide⟩)).1 :=
  ⟨(claim6_batch_order
      (⟨RLState.init 1 5 true, DownloadMetrics.init 0⟩ : PoolState) 0
      ([⟨Except.ok 1, 1, 0⟩, ⟨Except.error (TgError.other "x"), 1, 0⟩,
        ⟨Except.ok 2, 1, 0⟩] : List (PoolTask Nat))).1,
   (claim6_batch_order
      (⟨RLState.init 1 5 true, DownloadMetrics.init 0⟩ : PoolState) 0
      ([⟨Except.ok 1, 1, 0⟩, ⟨Except.error (TgError.other "x"), 1, 0⟩,
        ⟨Except.ok 2, 1, 0⟩] : List (PoolTask Nat))).2 1 (by decide)⟩

end TelegramDownloader
